import Mathlib

/-!
Verification of the dirty_static crate (src/lib.rs): a generic container
`DirtyStatic<T>` with two compile-time variants selected by cfg predicates
over the features `force-dynamic`, `force-static` and the `debug_assertions`
build flag. The mutable variant stores the value in an `UnsafeCell` and
`replace` overwrites it; the frozen variant stores a plain field and
`replace` is a no-op that prints a warning line to stderr.

The embedding models each variant as a structure holding the value, with
`replace` returning the successor state together with the list of lines
written to stderr during the call, and `deref` the read operation. The three
cfg predicates are modelled as Boolean functions of the three build flags.
-/

namespace DirtyStaticSpec

/-- Build configuration: the two cargo features of the crate and the
`debug_assertions` flag of the build profile. -/
structure Config where
  force_dynamic : Bool
  force_static : Bool
  debug_assertions : Bool

/-- Predicate of `cfg(all(feature = "force-static", feature = "force-dynamic"))`
guarding the `compile_error!` invocation (lib.rs lines 16-17). -/
def compile_error_cfg (c : Config) : Bool :=
  c.force_static && c.force_dynamic

/-- Predicate of `cfg(any(feature = "force-dynamic", all(not(feature = "force-static"), debug_assertions)))`
selecting the mutable internal module (lib.rs lines 21-24). -/
def mutable_cfg (c : Config) : Bool :=
  c.force_dynamic || (!c.force_static && c.debug_assertions)

/-- Predicate of `cfg(any(feature = "force-static", all(not(feature = "force-dynamic"), not(debug_assertions))))`
selecting the frozen internal module (lib.rs lines 130-133). -/
def frozen_cfg (c : Config) : Bool :=
  c.force_static || (!c.force_dynamic && !c.debug_assertions)

namespace Mutable

/-- Mutable variant: `pub struct DirtyStatic<T>(UnsafeCell<T>)`. The
`UnsafeCell` is modelled as the value it holds. -/
structure DirtyStatic (T : Type) where
  cell : T

/-- Constructor `pub const fn new(t: T) -> Self` of the mutable variant. -/
def DirtyStatic.new {T : Type} (t : T) : DirtyStatic T :=
  ⟨t⟩

/-- Read access `fn deref(&self) -> &T`: dereferences the raw pointer into
the cell, i.e. yields the currently stored value. -/
def DirtyStatic.deref {T : Type} (c : DirtyStatic T) : T :=
  c.cell

/-- Mutating operation `pub unsafe fn replace(&self, t: T)`: writes `t`
through the cell pointer. Returns the successor state paired with the lines
written to stderr (none in this variant). -/
def DirtyStatic.replace {T : Type} (_c : DirtyStatic T) (t : T) :
    DirtyStatic T × List String :=
  (⟨t⟩, [])

/-- A finite sequence of `replace` calls, accumulating the stderr output. -/
def DirtyStatic.replay {T : Type} (c : DirtyStatic T) (vs : List T) :
    DirtyStatic T × List String :=
  match vs with
  | [] => (c, [])
  | v :: rest =>
    let step := c.replace v
    let next := step.fst.replay rest
    (next.fst, step.snd ++ next.snd)

end Mutable

namespace Frozen

/-- Frozen variant: `pub struct DirtyStatic<T>(T)`, a plain immutable field. -/
structure DirtyStatic (T : Type) where
  val : T

/-- Constructor `pub const fn new(t: T) -> Self` of the frozen variant. -/
def DirtyStatic.new {T : Type} (t : T) : DirtyStatic T :=
  ⟨t⟩

/-- Read access `fn deref(&self) -> &T`: borrows the field directly. -/
def DirtyStatic.deref {T : Type} (c : DirtyStatic T) : T :=
  c.val

/-- The diagnostic line printed by the frozen variant on each `replace`
call, via `eprintln!`. -/
def warning_line : String :=
  "WARNING: Can\x27t replace in release mode!"

/-- Frozen `pub unsafe fn replace(&self, _t: T)`: ignores the argument,
leaves the state unchanged, and prints one warning line to stderr. -/
def DirtyStatic.replace {T : Type} (c : DirtyStatic T) (_t : T) :
    DirtyStatic T × List String :=
  (c, [warning_line])

/-- A finite sequence of `replace` calls, accumulating the stderr output. -/
def DirtyStatic.replay {T : Type} (c : DirtyStatic T) (vs : List T) :
    DirtyStatic T × List String :=
  match vs with
  | [] => (c, [])
  | v :: rest =>
    let step := c.replace v
    let next := step.fst.replay rest
    (next.fst, step.snd ++ next.snd)

end Frozen

/-- Helper: a replay of the mutable variant from any state ends at the last
value of a nonempty sequence, and emits no stderr output. -/
theorem Mutable.DirtyStatic.replay_deref {T : Type} (c : Mutable.DirtyStatic T)
    (vs : List T) (h : vs ≠ []) :
    ((c.replay vs).fst).deref = vs.getLast h := by
  induction vs generalizing c with
  | nil => exact absurd rfl h
  | cons v rest ih =>
    cases rest with
    | nil => rfl
    | cons w ws =>
      simpa [Mutable.DirtyStatic.replay] using
        ih (Mutable.DirtyStatic.mk v) (by simp)

/-- Helper: a replay of the frozen variant from any state leaves the state
unchanged and emits one warning line per replace call. -/
theorem Frozen.DirtyStatic.replay_spec {T : Type} (c : Frozen.DirtyStatic T)
    (vs : List T) :
    (c.replay vs).fst = c ∧ (c.replay vs).snd.length = vs.length := by
  induction vs generalizing c with
  | nil => exact ⟨rfl, rfl⟩
  | cons v rest ih =>
    have h := ih c
    simp [Frozen.DirtyStatic.replay, Frozen.DirtyStatic.replace] at h ⊢
    exact h

/-- C1: in a build selecting the mutable variant, after `new v1` then
`replace v2`, dereferencing yields `v2`. -/
theorem mutable_replace_then_deref (T : Type) (v1 v2 : T) :
    (((Mutable.DirtyStatic.new v1).replace v2).fst).deref = v2 :=
  rfl

/-- C2: in a build selecting the frozen variant, after `new v1` then
`replace v2`, dereferencing still yields `v1`, and the replace call writes
exactly one diagnostic line to stderr. -/
theorem frozen_replace_noop_one_warning (T : Type) (v1 v2 : T) :
    (((Frozen.DirtyStatic.new v1).replace v2).fst).deref = v1 ∧
      (((Frozen.DirtyStatic.new v1).replace v2).snd).length = 1 :=
  ⟨rfl, rfl⟩

/-- C3: in both variants, immediately after `new v` with no intervening
replace, dereferencing yields `v`. -/
theorem construct_identity (T : Type) (v : T) :
    (Mutable.DirtyStatic.new v).deref = v ∧ (Frozen.DirtyStatic.new v).deref = v :=
  ⟨rfl, rfl⟩

/-- C4: on every build configuration not rejected by the compile_error
guard, the two cfg predicates implement the decision table of the spec:
force-dynamic selects the mutable variant even in a release build,
force-static selects the frozen variant even in a debug build, and with
neither feature the debug flag alone decides. -/
theorem cfg_decision_table (fd fs da : Bool)
    (h : compile_error_cfg ⟨fd, fs, da⟩ = false) :
    (fd = true → mutable_cfg ⟨fd, fs, da⟩ = true ∧ frozen_cfg ⟨fd, fs, da⟩ = false) ∧
    (fs = true → frozen_cfg ⟨fd, fs, da⟩ = true ∧ mutable_cfg ⟨fd, fs, da⟩ = false) ∧
    (fd = false → fs = false →
      mutable_cfg ⟨fd, fs, da⟩ = da ∧ frozen_cfg ⟨fd, fs, da⟩ = !da) := by
  revert h
  cases fd <;> cases fs <;> cases da <;> decide

/-- Witness for C4 at a concrete configuration: force-dynamic in a release
build still selects the mutable variant. -/
theorem cfg_decision_table_witness :
    mutable_cfg ⟨true, false, false⟩ = true ∧ frozen_cfg ⟨true, false, false⟩ = false :=
  (cfg_decision_table true false false rfl).1 rfl

/-- C5: on every build configuration not rejected by the compile_error
guard, exactly one of the two variant cfg predicates holds, so exactly one
internal module is compiled. -/
theorem cfg_exclusive_exhaustive (fd fs da : Bool)
    (h : compile_error_cfg ⟨fd, fs, da⟩ = false) :
    mutable_cfg ⟨fd, fs, da⟩ = !frozen_cfg ⟨fd, fs, da⟩ := by
  revert h
  cases fd <;> cases fs <;> cases da <;> decide

/-- Witness for C5 at a concrete configuration: the default debug build
selects the mutable variant and not the frozen one. -/
theorem cfg_exclusive_exhaustive_witness :
    mutable_cfg ⟨false, false, true⟩ = !frozen_cfg ⟨false, false, true⟩ :=
  cfg_exclusive_exhaustive false false true rfl

/-- C6: the compile_error guard fires exactly when both override features
are enabled, on any build profile; it is the only build-rejecting
condition modelled, and the runtime operations are total functions with no
failure channel. -/
theorem compile_error_iff_both_features :
    ∀ fd fs da : Bool,
      compile_error_cfg ⟨fd, fs, da⟩ = true ↔ (fd = true ∧ fs = true) := by
  decide

/-- C7: in the mutable variant, replace is last-write-wins over arbitrary
nonempty sequences: after `new v0` and replaying `replace` over `vs`,
dereferencing yields the last element of `vs`. -/
theorem mutable_last_write_wins (T : Type) (v0 : T) (vs : List T) (h : vs ≠ []) :
    (((Mutable.DirtyStatic.new v0).replay vs).fst).deref = vs.getLast h :=
  Mutable.DirtyStatic.replay_deref (Mutable.DirtyStatic.new v0) vs h

/-- Witness for C7: after `new 10` then `replace 20` then `replace 30`,
dereferencing yields 30. -/
theorem mutable_last_write_wins_witness :
    (((Mutable.DirtyStatic.new (10 : Nat)).replay [20, 30]).fst).deref = 30 := by
  have h := mutable_last_write_wins Nat 10 [20, 30] (by decide)
  simpa using h

/-- C8: in the frozen variant, after `new v0` and any finite sequence of
replace calls, dereferencing still yields `v0`, and the number of warning
lines on stderr equals the number of replace calls. -/
theorem frozen_replay_noop_and_count (T : Type) (v0 : T) (vs : List T) :
    (((Frozen.DirtyStatic.new v0).replay vs).fst).deref = v0 ∧
      ((Frozen.DirtyStatic.new v0).replay vs).snd.length = vs.length := by
  have h := Frozen.DirtyStatic.replay_spec (Frozen.DirtyStatic.new v0) vs
  exact ⟨by rw [h.1]; rfl, h.2⟩

/-- C9: in the frozen variant, the observable behavior of replace is
independent of its argument: for any two arguments the successor state and
the emitted output coincide, and the output is the one fixed warning line. -/
theorem frozen_replace_arg_independent (T : Type) (c : Frozen.DirtyStatic T)
    (t1 t2 : T) :
    c.replace t1 = c.replace t2 ∧
      (c.replace t1).snd = [Frozen.warning_line] ∧
      (c.replace t1).fst = c :=
  ⟨rfl, rfl, rfl⟩

end DirtyStaticSpec
